import Mathlib

/-!
# Verification of the SD-card SPI-mode block driver (sdcard_spi.c)

This file gives a shallow embedding of the driver's protocol engine and
proves properties of it.  The hardware collaborators (SPI transfer,
chip-select, timer) are modelled by an explicit environment: the byte
stream the card returns is a function from read positions to bytes, and
each wall-clock-bounded token scan receives a fuel parameter counting the
poll iterations the deadline allows.  Every driver operation is a pure
function from the device state, the environment and the current read
position to a result, a new state, a trace of hardware events and the new
read position.
-/

set_option maxRecDepth 100000

namespace SdSpi

/-! ## Constants from sdcard_spi.c -/

def CRC7_POLY : Nat := 0x12
def CRC16_POLY : Nat := 0x1021

def SDF_INITIALIZED : Nat := 1
def SDF_HIGH_CAPACITY : Nat := 2
def SDF_WRITE_PROTECTED : Nat := 4
def SDF_DEINIT : Nat := 8

def SDE_NO_IDLE : Nat := 1
def SDE_IF_COND_ERR : Nat := 2
def SDE_CRC_ERR : Nat := 4
def SDE_OP_COND_ERR : Nat := 8
def SDE_OCR_ERR : Nat := 16
def SDE_READ_ERR : Nat := 32
def SDE_WRITE_ERR : Nat := 64
def SDE_OTHER_ERR : Nat := 128

def CF_APP_CMD : Nat := 1
def CF_FULL_RESP : Nat := 2
def CF_NOT_EXPECT : Nat := 4

/-- Modelled from the spec: the header sdcard.h is not in the sources; the
spec pins the sector size to 512 bytes (sector addresses are translated as
index * 512). -/
def SD_SECTOR_SIZE : Nat := 512

/-- Modelled from the spec: command codes declared in the missing header
sdcard.h.  The spec pins go-idle to code 0 (frame [0x40,0,0,0,0]); the
remaining codes are the standard SD SPI-mode command indices and are opaque
to every claim (they only appear inside transmitted frames). -/
def SDCMD_GO_IDLE_STATE : Nat := 0
def SDCMD_SEND_IF_COND : Nat := 8
def SDCMD_SEND_CSD : Nat := 9
def SDCMD_SET_BLOCKLEN : Nat := 16
def SDCMD_READ_SINGLE_BLOCK : Nat := 17
def SDCMD_WRITE_BLOCK : Nat := 24
def SDCMD_SEND_OP_COND : Nat := 41
def SDCMD_APP_CMD : Nat := 55
def SDCMD_READ_OCR : Nat := 58
def SDCMD_CRC_ON_OFF : Nat := 59

/-! ## Checksum engine (calc_crc7, calc_crc16) -/

/-- One shift round of the CRC7 register (8-bit register arithmetic). -/
def crc7Round (crc : Nat) : Nat :=
  if crc &&& 0x80 ≠ 0 then ((crc <<< 1) ^^^ CRC7_POLY) % 256
  else (crc <<< 1) % 256

/-- Eight CRC7 shift rounds, one per input bit. -/
def crc7Rounds : Nat → Nat → Nat
  | 0, crc => crc
  | n + 1, crc => crc7Rounds n (crc7Round crc)

/-- calc_crc7 from sdcard_spi.c: fold each byte into an 8-bit register,
eight shift rounds per byte, and force the low bit to 1 at the end. -/
def calc_crc7 (data : List Nat) : Nat :=
  (data.foldl (fun crc b => crc7Rounds 8 ((crc ^^^ b) % 256)) 0) ||| 1

/-- One shift round of the CRC16 register (16-bit register arithmetic). -/
def crc16Round (crc : Nat) : Nat :=
  if crc &&& 0x8000 ≠ 0 then ((crc <<< 1) ^^^ CRC16_POLY) % 65536
  else (crc <<< 1) % 65536

/-- Eight CRC16 shift rounds, one per input bit. -/
def crc16Rounds : Nat → Nat → Nat
  | 0, crc => crc
  | n + 1, crc => crc16Rounds n (crc16Round crc)

/-- calc_crc16 from sdcard_spi.c: CRC-16/CCITT, initial value 0, each byte
xor-ed into the high half of a 16-bit register. -/
def calc_crc16 (data : List Nat) : Nat :=
  data.foldl (fun crc b => crc16Rounds 8 ((crc ^^^ (b <<< 8)) % 65536)) 0

/-! ## Command framing (populate_buffer) -/

/-- populate_buffer from sdcard_spi.c: 6-byte command frame
[code|0x40, arg big-endian (4 bytes), crc7]. -/
def populate_buffer (command arg : Nat) : List Nat :=
  let b := [(command ||| 0x40) % 256, (arg >>> 24) &&& 0xFF, (arg >>> 16) &&& 0xFF,
            (arg >>> 8) &&& 0xFF, arg &&& 0xFF]
  b ++ [calc_crc7 b]

example : calc_crc7 [0x40, 0, 0, 0, 0] = 0x95 := by decide

/-! ## Hardware environment and event traces

The SPI collaborator is modelled by `Env`: `bus i` is the byte the card
drives on the `i`-th single-byte read the driver performs (masked to 8
bits).  Transmitted bytes never influence `bus` directly; a concrete `bus`
chosen in a theorem plays the role of the card's scripted answers.  Each
`find_token` call takes a fuel argument: the number of poll iterations the
wall-clock deadline allows in that call. -/

structure Env where
  bus : Nat → Nat

/-- A hardware event performed by the driver. -/
inductive Event where
  | csAssert : Event
  | csRelease : Event
  | xferOut : List Nat → Event
  | xferIn : Nat → Event
  | delay : Nat → Event
deriving DecidableEq, Repr

/-- Driver state: the flag byte and the sticky error byte of the static
`sd_spi` struct (the hardware handles are carried by `Env`). -/
structure SdState where
  flags : Nat
  err : Nat
deriving DecidableEq, Repr

/-- A byte read from the bus (the hardware returns 8-bit values). -/
def rd (env : Env) (pos : Nat) : Nat := env.bus pos % 256

/-- Read `n` consecutive bytes from the bus starting at `pos`. -/
def readN (env : Env) (pos n : Nat) : List Nat :=
  (List.range n).map (fun i => rd env (pos + i))

/-- Scan a received buffer for the first byte that is not the idle filler
0xFF; return that byte and its index.  When every byte is 0xFF the result
is (0xFF, length), matching the C loops that leave `ret` at the last read
byte. -/
def scanIdx : List Nat → Nat × Nat
  | [] => (0xFF, 0)
  | b :: rest =>
    if b ≠ 0xFF then (b, 0)
    else
      let r := scanIdx rest
      (r.1, r.2 + 1)

/-- The response-polling loop of read_data_block: read one byte at a time,
up to `tries` times, stopping at the first byte that is not 0xFF.  Returns
the response byte (0xFF when every read was idle) and the new position. -/
def scan_resp (env : Env) (pos : Nat) : Nat → Nat × Nat
  | 0 => (0xFF, pos)
  | tries + 1 =>
    if rd env pos ≠ 0xFF then (rd env pos, pos + 1)
    else scan_resp env (pos + 1) tries

/-- find_token from sdcard_spi.c: poll one byte at a time until the token
appears or the deadline (modelled as `fuel` remaining iterations) passes.
Returns whether the token was found and the new position. -/
def find_token (token : Nat) (env : Env) (pos : Nat) : Nat → Bool × Nat
  | 0 => (false, pos)
  | fuel + 1 =>
    if rd env pos = token then (true, pos + 1)
    else find_token token env (pos + 1) fuel

/-! ## Command transport (send_command, check_command) -/

/-- Result of one send_command exchange: the status byte, the 8-byte
response window, the event trace and the new read position. -/
structure CmdRes where
  ret : Nat
  buf : List Nat
  tr : List Event
  pos : Nat
deriving Repr

/-- send_command from sdcard_spi.c.  Asserts chip-select, optionally
transmits the application-command prefix frame, transmits the command
frame, reads an 8-byte window and realigns it to the first non-idle byte;
with CF_FULL_RESP the window is refilled to 8 bytes.  The bytes left
behind the realigned window without CF_FULL_RESP are the stale tail of
the original window, as with the C memmove. -/
def send_command (command arg flags : Nat) (env : Env) (pos : Nat) : CmdRes :=
  let appTr : List Event :=
    if flags &&& CF_APP_CMD ≠ 0 then [Event.xferOut (populate_buffer SDCMD_APP_CMD 0)] else []
  let frame := populate_buffer command arg
  let bytes := readN env pos 8
  let s := scanIdx bytes
  let baseTr := Event.csAssert :: appTr ++ [Event.xferOut frame, Event.xferIn 8]
  if s.1 = 0xFF ∨ s.2 = 0 then
    ⟨s.1, bytes, baseTr ++ [Event.csRelease], pos + 8⟩
  else if flags &&& CF_FULL_RESP ≠ 0 then
    ⟨s.1, bytes.drop s.2 ++ readN env (pos + 8) s.2,
      baseTr ++ [Event.xferIn s.2, Event.csRelease], pos + 8 + s.2⟩
  else
    ⟨s.1, bytes.drop s.2 ++ bytes.drop (8 - s.2), baseTr ++ [Event.csRelease], pos + 8⟩

/-- The success predicate of check_command: with CF_NOT_EXPECT the
response must differ from `expect`, otherwise it must equal it. -/
def cmdSuccess (flags expect ret : Nat) : Bool :=
  if flags &&& CF_NOT_EXPECT ≠ 0 then ret ≠ expect else ret = expect

/-- Result of a check_command retry loop. -/
structure ChkRes where
  ok : Nat
  buf : List Nat
  tr : List Event
  pos : Nat
deriving Repr

/-- check_command from sdcard_spi.c: retry the exchange up to `attempts`
times, delaying 1000 microseconds between failed attempts (never after
the last), returning 1 at the first attempt satisfying the predicate and
0 once every attempt is exhausted. -/
def check_command (cmd arg flags expect : Nat) (env : Env) (pos : Nat) : Nat → ChkRes
  | 0 => ⟨0, [], [], pos⟩
  | attempts + 1 =>
    let s := send_command cmd arg flags env pos
    if cmdSuccess flags expect s.ret then ⟨1, s.buf, s.tr, s.pos⟩
    else if attempts = 0 then ⟨0, s.buf, s.tr, s.pos⟩
    else
      let r := check_command cmd arg flags expect env s.pos attempts
      ⟨r.ok, r.buf, s.tr ++ Event.delay 1000 :: r.tr, r.pos⟩

/-- Number of chip-select assertions in a trace: one per send_command
invocation. -/
def countAsserts : List Event → Nat
  | [] => 0
  | Event.csAssert :: tr => countAsserts tr + 1
  | _ :: tr => countAsserts tr

/-- Number of delay events in a trace (check_command only ever emits
1000-microsecond inter-attempt delays). -/
def countDelays : List Event → Nat
  | [] => 0
  | Event.delay _ :: tr => countDelays tr + 1
  | _ :: tr => countDelays tr

/-! ## Block transfer engine -/

/-- The sector-to-protocol-address translation shared by
sdcard_write_sector and sdcard_read_sector: the sector index verbatim for
a high-capacity card, otherwise the byte offset sector * 512 in 32-bit
arithmetic. -/
def sector_offset (flags sector : Nat) : Nat :=
  if flags &&& SDF_HIGH_CAPACITY ≠ 0 then sector
  else (sector * SD_SECTOR_SIZE) % 4294967296

/-- Result of sdcard_write_sector. -/
structure WrRes where
  ret : Nat
  st : SdState
  tr : List Event
  pos : Nat
deriving Repr

/-- sdcard_write_sector from sdcard_spi.c.  The not-ready guard returns
(uint8_t)-1 = 255 before any hardware access.  Otherwise: transmit the
write-block frame, scan an 8-byte window for a response, abort with
WriteErr if every byte is idle; transmit the 0xFE header, the payload and
its CRC16; scan an 8-byte window for the data-response token; poll for
busy release.  Success requires the token's low 5 bits to equal 5 and the
busy release to be seen; any failure sets WriteErr and returns 0. -/
def sdcard_write_sector (st : SdState) (buf : List Nat) (sector fuelBusy : Nat)
    (env : Env) (pos : Nat) : WrRes :=
  if st.flags &&& SDF_INITIALIZED = 0 then ⟨255, st, [], pos⟩
  else
    let offset := sector_offset st.flags sector
    let crc := calc_crc16 buf
    let frame := populate_buffer SDCMD_WRITE_BLOCK offset
    let s := scanIdx (readN env pos 8)
    let tr0 := [Event.csAssert, Event.xferOut frame, Event.xferIn 8]
    if s.1 = 0xFF then
      ⟨0, {st with err := st.err ||| SDE_WRITE_ERR}, tr0 ++ [Event.csRelease], pos + 8⟩
    else
      let resp := (scanIdx (readN env (pos + 8) 8)).1
      let r1 : Nat := if resp &&& 0x1F = 5 then 0 else 2
      let b := find_token 0xFF env (pos + 16) fuelBusy
      let r2 : Nat := if b.1 then r1 else r1 + 1
      let tr := tr0 ++ [Event.xferOut [0xFE], Event.xferOut buf,
        Event.xferOut [(crc >>> 8) &&& 0xFF, crc &&& 0xFF], Event.xferIn 8, Event.csRelease]
      if r2 > 0 then ⟨0, {st with err := st.err ||| SDE_WRITE_ERR}, tr, b.2⟩
      else ⟨1, st, tr, b.2⟩

/-- Result of read_data_block and sdcard_read_sector. -/
structure RdRes where
  ret : Nat
  st : SdState
  data : List Nat
  tr : List Event
  pos : Nat
deriving Repr

/-- read_data_block from sdcard_spi.c.  Transmit the frame; poll up to 16
single bytes for the first non-idle response (nonzero response records an
invalid-response error); scan for the 0xFE start token (fuel `f1`); drain
`len` payload bytes and the 2-byte CRC trailer unconditionally; best-effort
busy scan (fuel `f2`, result ignored); a CRC mismatch sets CrcErr and
forces failure; any failure sets ReadErr and returns 0, otherwise 1. -/
def read_data_block (st : SdState) (cmd arg len f1 f2 : Nat) (env : Env) (pos : Nat) : RdRes :=
  let frame := populate_buffer cmd arg
  let s := scan_resp env pos 16
  let r1 : Nat := if s.1 = 0 then 0 else 1
  let t := find_token 0xFE env s.2 f1
  let r2 : Nat := if t.1 then r1 else 2
  let data := readN env t.2 len
  let recd := (rd env (t.2 + len) <<< 8) ||| rd env (t.2 + len + 1)
  let b := find_token 0xFF env (t.2 + len + 2) f2
  let crc := calc_crc16 data
  let tr := [Event.csAssert, Event.xferOut frame, Event.xferIn len,
    Event.xferIn 2, Event.csRelease]
  if recd ≠ crc then
    ⟨0, {st with err := (st.err ||| SDE_CRC_ERR) ||| SDE_READ_ERR}, data, tr, b.2⟩
  else if r2 > 0 then
    ⟨0, {st with err := st.err ||| SDE_READ_ERR}, data, tr, b.2⟩
  else ⟨1, st, data, tr, b.2⟩

/-- sdcard_read_sector from sdcard_spi.c: the not-ready guard, then
read_data_block with the read-single-block command, the translated
address and length 512. -/
def sdcard_read_sector (st : SdState) (sector f1 f2 : Nat) (env : Env) (pos : Nat) : RdRes :=
  if st.flags &&& SDF_INITIALIZED = 0 then ⟨255, st, [], [], pos⟩
  else
    read_data_block st SDCMD_READ_SINGLE_BLOCK (sector_offset st.flags sector)
      SD_SECTOR_SIZE f1 f2 env pos

/-! ## Initialization state machine and deinitialization -/

/-- sdcard_check_write_protect from sdcard_spi.c: read the 16-byte CSD
register; return 0 when the read fails or when bits 0x30 of CSD byte 14
are nonzero, else 1.  Also returns the state (read_data_block may have
accumulated errors) and position. -/
def sdcard_check_write_protect (st : SdState) (f1 f2 : Nat) (env : Env) (pos : Nat) :
    Nat × SdState × Nat :=
  let r := read_data_block st SDCMD_SEND_CSD 0 16 f1 f2 env pos
  if r.ret = 0 then (0, r.st, r.pos)
  else if r.data.getD 14 0 &&& 0x30 ≠ 0 then (0, r.st, r.pos)
  else (1, r.st, r.pos)

/-- Result of sdcard_init. -/
structure InitRes where
  ret : Nat
  st : SdState
  pos : Nat
deriving Repr

/-- The tail of sdcard_init from the set-block-length stage onward:
SET_BLOCKLEN (3 attempts, OtherErr), then the write-protect check (its
failure sets the WriteProtected flag and aborts), then on full success the
Initialized flag is set. -/
def sdcard_init_tail (st : SdState) (f1 f2 : Nat) (env : Env) (pos : Nat) : InitRes :=
  let c7 := check_command SDCMD_SET_BLOCKLEN SD_SECTOR_SIZE 0 0 env pos 3
  if c7.ok = 0 then ⟨0, {st with err := st.err ||| SDE_OTHER_ERR}, c7.pos⟩
  else
    let w := sdcard_check_write_protect st f1 f2 env c7.pos
    if w.1 = 0 then ⟨0, {w.2.1 with flags := w.2.1.flags ||| SDF_WRITE_PROTECTED}, w.2.2⟩
    else ⟨1, {w.2.1 with flags := w.2.1.flags ||| SDF_INITIALIZED}, w.2.2⟩

/-- sdcard_init from sdcard_spi.c: the linear stage sequence go-idle,
interface condition + version classification, CRC enable, OCR read and
voltage window check, operation condition (application command), the
v2-only capacity re-read, then `sdcard_init_tail`.  The first failing
stage ORs its sticky error flag and returns 0. -/
def sdcard_init (st : SdState) (f1 f2 : Nat) (env : Env) (pos : Nat) : InitRes :=
  let c1 := check_command SDCMD_GO_IDLE_STATE 0 0 1 env pos 50
  if c1.ok = 0 then ⟨0, {st with err := st.err ||| SDE_NO_IDLE}, c1.pos⟩
  else
    let c2 := check_command SDCMD_SEND_IF_COND 0x10A (CF_FULL_RESP ||| CF_NOT_EXPECT)
      0xFF env c1.pos 3
    if c2.ok = 0 then ⟨0, {st with err := st.err ||| SDE_IF_COND_ERR}, c2.pos⟩
    else
      let sd_ver : Nat :=
        if c2.buf.getD 0 0 &&& 4 ≠ 0 then 1
        else if c2.buf.getD 0 0 = 1 ∧ c2.buf.getD 3 0 = 1 ∧ c2.buf.getD 4 0 = 10 then 2
        else 0
      if sd_ver = 0 then ⟨0, {st with err := st.err ||| SDE_IF_COND_ERR}, c2.pos⟩
      else
        let c3 := check_command SDCMD_CRC_ON_OFF 1 0 1 env c2.pos 3
        if c3.ok = 0 then ⟨0, {st with err := st.err ||| SDE_CRC_ERR}, c3.pos⟩
        else
          let c4 := check_command SDCMD_READ_OCR 0 CF_FULL_RESP 1 env c3.pos 20
          if c4.ok = 0 then ⟨0, {st with err := st.err ||| SDE_OCR_ERR}, c4.pos⟩
          else if c4.buf.getD 2 0 &&& 0x30 ≠ 0x30 then
            ⟨0, {st with err := st.err ||| SDE_OCR_ERR}, c4.pos⟩
          else
            let c5 := check_command SDCMD_SEND_OP_COND (if sd_ver = 1 then 0 else 1 <<< 30)
              CF_APP_CMD 0 env c4.pos 250
            if c5.ok = 0 then ⟨0, {st with err := st.err ||| SDE_OP_COND_ERR}, c5.pos⟩
            else if sd_ver = 2 then
              let c6 := check_command SDCMD_READ_OCR 0 CF_FULL_RESP 0 env c5.pos 5
              if c6.ok = 0 then ⟨0, {st with err := st.err ||| SDE_OCR_ERR}, c6.pos⟩
              else
                let st6 := if c6.buf.getD 1 0 &&& 0x40 ≠ 0 then
                  {st with flags := st.flags ||| SDF_HIGH_CAPACITY} else st
                sdcard_init_tail st6 f1 f2 env c6.pos
            else sdcard_init_tail st f1 f2 env c5.pos

/-- sdcard_deinit from sdcard_spi.c: idempotent via the Deinitialized
flag; otherwise set that flag and best-effort send go-idle and
CRC-disable (results ignored). -/
def sdcard_deinit (st : SdState) (env : Env) (pos : Nat) : SdState × List Event × Nat :=
  if st.flags &&& SDF_DEINIT ≠ 0 then (st, [], pos)
  else
    let s1 := send_command SDCMD_GO_IDLE_STATE 0 0 env pos
    let s2 := send_command SDCMD_CRC_ON_OFF 0 0 env s1.pos
    ({st with flags := st.flags ||| SDF_DEINIT}, s1.tr ++ s2.tr, s2.pos)

/-! ## Concrete card scripts used to instantiate the theorems -/

/-- A scripted card answering every init stage successfully up to the
write-protect check, whose CSD has the protect bits (byte 14 = 0x30) set;
the CSD trailer 0x0595 is the correct CRC16 of that CSD block. -/
def busInitWP : List Nat :=
  [1, 1, 1, 1, 1, 1, 1, 1] ++ [4, 0, 0, 0, 0, 0, 0, 0] ++ [1, 0, 0, 0, 0, 0, 0, 0] ++
  [1, 0, 0x30, 0, 0, 0, 0, 0] ++ [0, 0, 0, 0, 0, 0, 0, 0] ++ [0, 0, 0, 0, 0, 0, 0, 0] ++
  [0, 0xFE] ++ (List.replicate 14 0 ++ [0x30, 0]) ++ [0x05, 0x95]

/-- Environment built from the protected-card script. -/
def envInitWP : Env := ⟨fun i => busInitWP.getD i 0⟩

/-- A card that always answers 2 on the bus. -/
def envConst2 : Env := ⟨fun _ => 2⟩

/-- A card that never answers (the bus stays at the idle filler 0xFF). -/
def envIdle : Env := ⟨fun _ => 0xFF⟩

/-- A card that always answers 0. -/
def envZero : Env := ⟨fun _ => 0⟩

/-- A scripted card for one successful sector write: an immediate zero
response to the write command, the data-response token 0x05 (low five
bits 0b00101), and an idle byte releasing the busy poll. -/
def busWriteOk : List Nat :=
  [0, 0, 0, 0, 0, 0, 0, 0] ++ [0x05, 0, 0, 0, 0, 0, 0, 0] ++ [0xFF]

/-- Environment built from the successful-write script. -/
def envWriteOk : Env := ⟨fun i => busWriteOk.getD i 0⟩

/-! ## Bitmask helper lemmas -/

theorem or_flag_and (a f : Nat) : (a ||| f) &&& f = f := by
  apply Nat.eq_of_testBit_eq
  intro i
  simp only [Nat.testBit_and, Nat.testBit_or]
  cases a.testBit i <;> cases f.testBit i <;> rfl

theorem or_or_flag_and (a z m : Nat) : ((a ||| m) ||| z) &&& m = m := by
  apply Nat.eq_of_testBit_eq
  intro i
  simp only [Nat.testBit_and, Nat.testBit_or]
  cases a.testBit i <;> cases z.testBit i <;> cases m.testBit i <;> rfl

theorem or_and_of_disjoint (a m k : Nat) (h : m &&& k = 0) :
    (a ||| m) &&& k = a &&& k := by
  apply Nat.eq_of_testBit_eq
  intro i
  have hb := congrArg (fun x => Nat.testBit x i) h
  simp only [Nat.testBit_and, Nat.zero_testBit] at hb
  simp only [Nat.testBit_and, Nat.testBit_or]
  cases hm : m.testBit i <;> cases hk : k.testBit i <;>
    cases ha : a.testBit i <;> simp_all

theorem or_absorb_left (a b : Nat) : a ||| (a ||| b) = a ||| b := by
  rw [← Nat.or_assoc, Nat.or_self]

theorem or_absorb_left2 (a b c : Nat) : a ||| ((a ||| b) ||| c) = (a ||| b) ||| c := by
  rw [← Nat.or_assoc, ← Nat.or_assoc, Nat.or_self]

/-! ## Claim theorems -/

/-- Claim C7: the CRC7 function (MSB-first, polynomial 0x12, initial value
0, least-significant bit forced to 1), applied to the five bytes
[0x40, 0, 0, 0, 0] of the go-idle command frame, returns exactly 0x95; the
go-idle frame built by populate_buffer is therefore
[0x40, 0, 0, 0, 0, 0x95]. -/
theorem crc7_go_idle_frame :
    calc_crc7 [0x40, 0, 0, 0, 0] = 0x95 ∧
    populate_buffer SDCMD_GO_IDLE_STATE 0 = [0x40, 0, 0, 0, 0, 0x95] := by
  constructor <;> decide

/-- Claim C4: with the Initialized flag unset, read_sector and
write_sector return 255 ((uint8_t)-1, the distinguishable not-ready
result) with an empty hardware trace (no chip-select assertion, no byte
transferred, no bus byte consumed) and an unchanged state; 255 is distinct
from the boolean protocol results 0 and 1. -/
theorem not_ready_guard (st : SdState) (buf : List Nat) (sector fb f1 f2 : Nat)
    (env : Env) (pos : Nat) (h : st.flags &&& SDF_INITIALIZED = 0) :
    sdcard_read_sector st sector f1 f2 env pos = ⟨255, st, [], [], pos⟩ ∧
    sdcard_write_sector st buf sector fb env pos = ⟨255, st, [], pos⟩ ∧
    (255 : Nat) ≠ 0 ∧ (255 : Nat) ≠ 1 := by
  refine ⟨?_, ?_, by decide, by decide⟩ <;>
    simp [sdcard_read_sector, sdcard_write_sector, h]

/-- Claim C4 witness: the guard at the concrete uninitialized state. -/
theorem not_ready_guard_witness :
    sdcard_read_sector ⟨0, 0⟩ 3 1 1 envZero 0 = ⟨255, ⟨0, 0⟩, [], [], 0⟩ ∧
    sdcard_write_sector ⟨0, 0⟩ [] 3 1 envZero 0 = ⟨255, ⟨0, 0⟩, [], 0⟩ ∧
    (255 : Nat) ≠ 0 ∧ (255 : Nat) ≠ 1 :=
  not_ready_guard ⟨0, 0⟩ [] 3 1 1 1 envZero 0 (by decide)

/-- Claim C2: once Initialized is set, both write_sector and read_sector
transmit, as the very first bytes after asserting chip-select, the command
frame built over the shared translated address `sector_offset`; that
translation is the byte offset sector * 512 (32-bit) when the
HighCapacity flag is unset and the sector index verbatim when it is set;
concretely sector 5 maps to 2560 without HighCapacity and to 5 with it. -/
theorem sector_address_translation (st : SdState) (buf : List Nat)
    (sector fb f1 f2 : Nat) (env : Env) (pos : Nat)
    (hinit : st.flags &&& SDF_INITIALIZED ≠ 0) :
    (∃ rest, (sdcard_write_sector st buf sector fb env pos).tr =
      Event.csAssert ::
        Event.xferOut (populate_buffer SDCMD_WRITE_BLOCK (sector_offset st.flags sector)) ::
        rest) ∧
    (∃ rest, (sdcard_read_sector st sector f1 f2 env pos).tr =
      Event.csAssert ::
        Event.xferOut (populate_buffer SDCMD_READ_SINGLE_BLOCK (sector_offset st.flags sector)) ::
        rest) ∧
    (st.flags &&& SDF_HIGH_CAPACITY = 0 → sector * 512 < 4294967296 →
      sector_offset st.flags sector = sector * 512) ∧
    (st.flags &&& SDF_HIGH_CAPACITY ≠ 0 → sector_offset st.flags sector = sector) ∧
    (st.flags &&& SDF_HIGH_CAPACITY = 0 → sector_offset st.flags 5 = 2560) ∧
    (st.flags &&& SDF_HIGH_CAPACITY ≠ 0 → sector_offset st.flags 5 = 5) := by
  refine ⟨?_, ?_, ?_, ?_, ?_, ?_⟩
  · unfold sdcard_write_sector
    rw [if_neg hinit]
    dsimp only
    split
    · exact ⟨[Event.xferIn 8, Event.csRelease], rfl⟩
    · refine ⟨[Event.xferIn 8, Event.xferOut [0xFE], Event.xferOut buf,
        Event.xferOut [(calc_crc16 buf >>> 8) &&& 0xFF, calc_crc16 buf &&& 0xFF],
        Event.xferIn 8, Event.csRelease], ?_⟩
      simp only [apply_ite WrRes.tr, ite_self]
      rfl
  · unfold sdcard_read_sector
    rw [if_neg hinit]
    unfold read_data_block
    dsimp only
    refine ⟨[Event.xferIn SD_SECTOR_SIZE, Event.xferIn 2, Event.csRelease], ?_⟩
    simp only [apply_ite RdRes.tr, ite_self]
  · intro h hlt
    simp [sector_offset, SD_SECTOR_SIZE, h, Nat.mod_eq_of_lt hlt]
  · intro h
    simp [sector_offset, h]
  · intro h
    simp [sector_offset, SD_SECTOR_SIZE, h]
  · intro h
    simp [sector_offset, h]

theorem countAsserts_append (a b : List Event) :
    countAsserts (a ++ b) = countAsserts a + countAsserts b := by
  induction a with
  | nil => simp [countAsserts]
  | cons e tr ih => cases e <;> simp [countAsserts, ih] <;> omega

theorem countDelays_append (a b : List Event) :
    countDelays (a ++ b) = countDelays a + countDelays b := by
  induction a with
  | nil => simp [countDelays]
  | cons e tr ih => cases e <;> simp [countDelays, ih] <;> omega

theorem countAsserts_cons_delay (us : Nat) (t : List Event) :
    countAsserts (Event.delay us :: t) = countAsserts t := rfl

theorem countDelays_cons_delay (us : Nat) (t : List Event) :
    countDelays (Event.delay us :: t) = countDelays t + 1 := rfl

theorem send_command_counts (cmd arg flags : Nat) (env : Env) (pos : Nat) :
    countAsserts (send_command cmd arg flags env pos).tr = 1 ∧
    countDelays (send_command cmd arg flags env pos).tr = 0 := by
  unfold send_command
  dsimp only
  split <;> constructor <;>
    simp [countAsserts, countDelays, countAsserts_append, countDelays_append,
      apply_ite CmdRes.tr, apply_ite countAsserts, apply_ite countDelays, ite_self]

theorem check_command_all_fail (cmd arg flags expect : Nat) (env : Env)
    (hfail : ∀ p, cmdSuccess flags expect (send_command cmd arg flags env p).ret = false) :
    ∀ attempts pos, (check_command cmd arg flags expect env pos attempts).ok = 0 ∧
      countAsserts (check_command cmd arg flags expect env pos attempts).tr = attempts ∧
      countDelays (check_command cmd arg flags expect env pos attempts).tr = attempts - 1 := by
  intro attempts
  induction attempts with
  | zero => exact fun pos => ⟨rfl, rfl, rfl⟩
  | succ a ih =>
    intro pos
    unfold check_command
    dsimp only
    rw [hfail pos]
    rw [if_neg (by simp)]
    rcases Nat.eq_zero_or_pos a with ha | ha
    · subst ha
      rw [if_pos rfl]
      exact ⟨rfl, (send_command_counts cmd arg flags env pos).1,
        (send_command_counts cmd arg flags env pos).2⟩
    · rw [if_neg (Nat.pos_iff_ne_zero.mp ha)]
      refine ⟨(ih _).1, ?_, ?_⟩
      · dsimp only
        rw [countAsserts_append, countAsserts_cons_delay,
          (send_command_counts cmd arg flags env pos).1, (ih _).2.1]
        omega
      · dsimp only
        rw [countDelays_append, countDelays_cons_delay,
          (send_command_counts cmd arg flags env pos).2, (ih _).2.2]
        omega

/-- Claim C6: with at least one attempt allowed, (a) if the command
exchange never satisfies the selected success predicate, check_command
performs exactly `attempts` invocations (one chip-select assertion each)
and exactly `attempts - 1` one-millisecond inter-attempt delays and
returns failure; (b) if the first attempt satisfies the predicate it
returns success immediately after a single invocation with no delay. -/
theorem check_command_retry_policy (cmd arg flags expect : Nat) (env : Env)
    (pos attempts : Nat) (hA : 1 ≤ attempts) :
    ((∀ p, cmdSuccess flags expect (send_command cmd arg flags env p).ret = false) →
      (check_command cmd arg flags expect env pos attempts).ok = 0 ∧
      countAsserts (check_command cmd arg flags expect env pos attempts).tr = attempts ∧
      countDelays (check_command cmd arg flags expect env pos attempts).tr = attempts - 1) ∧
    (cmdSuccess flags expect (send_command cmd arg flags env pos).ret = true →
      (check_command cmd arg flags expect env pos attempts).ok = 1 ∧
      countAsserts (check_command cmd arg flags expect env pos attempts).tr = 1 ∧
      countDelays (check_command cmd arg flags expect env pos attempts).tr = 0) := by
  constructor
  · intro hfail
    exact check_command_all_fail cmd arg flags expect env hfail attempts pos
  · intro hsucc
    obtain ⟨a, rfl⟩ : ∃ a, attempts = a + 1 :=
      ⟨attempts - 1, (Nat.succ_pred_eq_of_pos hA).symm⟩
    unfold check_command
    dsimp only
    rw [hsucc]
    rw [if_pos rfl]
    exact ⟨rfl, (send_command_counts cmd arg flags env pos).1,
      (send_command_counts cmd arg flags env pos).2⟩

/-- Claim C6 witness: against a card that always answers 2, a 3-attempt
call expecting 1 fails after exactly 3 invocations and 2 delays, and a
3-attempt call expecting 2 succeeds with 1 invocation and no delay. -/
theorem check_command_retry_policy_witness :
    ((check_command 17 0 0 1 envConst2 0 3).ok = 0 ∧
      countAsserts (check_command 17 0 0 1 envConst2 0 3).tr = 3 ∧
      countDelays (check_command 17 0 0 1 envConst2 0 3).tr = 3 - 1) ∧
    ((check_command 17 0 0 2 envConst2 0 3).ok = 1 ∧
      countAsserts (check_command 17 0 0 2 envConst2 0 3).tr = 1 ∧
      countDelays (check_command 17 0 0 2 envConst2 0 3).tr = 0) :=
  ⟨(check_command_retry_policy 17 0 0 1 envConst2 0 3 (by decide)).1 (fun _ => rfl),
   (check_command_retry_policy 17 0 0 2 envConst2 0 3 (by decide)).2 (by decide)⟩

/-- Claim C5: for a write_sector call that reaches the data exchange (the
state is initialized and the first 8-byte response scan saw a non-idle
byte), the call returns success exactly when the data-response token's low
5 bits equal 0b00101 and the busy release was observed within the timeout;
otherwise it returns 0 and the WriteErr flag is set. -/
theorem write_sector_data_response (st : SdState) (buf : List Nat) (sector fb : Nat)
    (env : Env) (pos : Nat) (hinit : st.flags &&& SDF_INITIALIZED ≠ 0)
    (hresp : (scanIdx (readN env pos 8)).1 ≠ 0xFF) :
    ((sdcard_write_sector st buf sector fb env pos).ret = 1 ↔
      ((scanIdx (readN env (pos + 8) 8)).1 &&& 0x1F = 5 ∧
        (find_token 0xFF env (pos + 16) fb).1 = true)) ∧
    (¬((scanIdx (readN env (pos + 8) 8)).1 &&& 0x1F = 5 ∧
        (find_token 0xFF env (pos + 16) fb).1 = true) →
      (sdcard_write_sector st buf sector fb env pos).ret = 0 ∧
      (sdcard_write_sector st buf sector fb env pos).st.err &&& SDE_WRITE_ERR ≠ 0) := by
  unfold sdcard_write_sector
  rw [if_neg hinit]
  dsimp only
  rw [if_neg hresp]
  by_cases h5 : (scanIdx (readN env (pos + 8) 8)).1 &&& 0x1F = 5 <;>
    by_cases hb : (find_token 0xFF env (pos + 16) fb).1 = true <;>
      simp [h5, hb, SDE_WRITE_ERR, or_flag_and]

/-- Claim C5 witness: the successful-write script (zero command response,
token 0x05, immediate busy release) and the initialized state. -/
theorem write_sector_data_response_witness :
    ((sdcard_write_sector ⟨1, 0⟩ [] 5 1 envWriteOk 0).ret = 1 ↔
      ((scanIdx (readN envWriteOk 8 8)).1 &&& 0x1F = 5 ∧
        (find_token 0xFF envWriteOk 16 1).1 = true)) ∧
    (¬((scanIdx (readN envWriteOk 8 8)).1 &&& 0x1F = 5 ∧
        (find_token 0xFF envWriteOk 16 1).1 = true) →
      (sdcard_write_sector ⟨1, 0⟩ [] 5 1 envWriteOk 0).ret = 0 ∧
      (sdcard_write_sector ⟨1, 0⟩ [] 5 1 envWriteOk 0).st.err &&& SDE_WRITE_ERR ≠ 0) :=
  write_sector_data_response ⟨1, 0⟩ [] 5 1 envWriteOk 0 (by decide) (by decide)

/-- Claim C1: the generic block read returns success exactly when the
first non-idle response byte was 0, the 0xFE start token was found within
the timeout, and the recomputed CRC16 over the received bytes equals the
received trailer; a CRC mismatch sets CrcErr and forces a failure return
regardless of the other checks. -/
theorem read_data_block_success_iff (st : SdState) (cmd arg len f1 f2 : Nat)
    (env : Env) (pos : Nat) :
    ((read_data_block st cmd arg len f1 f2 env pos).ret = 1 ↔
      ((scan_resp env pos 16).1 = 0 ∧
        (find_token 0xFE env (scan_resp env pos 16).2 f1).1 = true ∧
        (rd env ((find_token 0xFE env (scan_resp env pos 16).2 f1).2 + len) <<< 8 |||
            rd env ((find_token 0xFE env (scan_resp env pos 16).2 f1).2 + len + 1)) =
          calc_crc16 (readN env (find_token 0xFE env (scan_resp env pos 16).2 f1).2 len))) ∧
    ((rd env ((find_token 0xFE env (scan_resp env pos 16).2 f1).2 + len) <<< 8 |||
        rd env ((find_token 0xFE env (scan_resp env pos 16).2 f1).2 + len + 1)) ≠
        calc_crc16 (readN env (find_token 0xFE env (scan_resp env pos 16).2 f1).2 len) →
      (read_data_block st cmd arg len f1 f2 env pos).ret = 0 ∧
      (read_data_block st cmd arg len f1 f2 env pos).st.err &&& SDE_CRC_ERR ≠ 0) := by
  unfold read_data_block
  dsimp only
  by_cases hcrc : (rd env ((find_token 0xFE env (scan_resp env pos 16).2 f1).2 + len) <<< 8 |||
      rd env ((find_token 0xFE env (scan_resp env pos 16).2 f1).2 + len + 1)) =
      calc_crc16 (readN env (find_token 0xFE env (scan_resp env pos 16).2 f1).2 len)
  · by_cases hs : (scan_resp env pos 16).1 = 0 <;>
      by_cases ht : (find_token 0xFE env (scan_resp env pos 16).2 f1).1 = true <;>
        simp [hcrc, hs, ht]
  · simp [hcrc, SDE_CRC_ERR, or_or_flag_and]

/-- Claim C1 witness: the success characterisation instantiated at a
concrete card script. -/
theorem read_data_block_success_iff_witness :
    ((read_data_block ⟨0, 0⟩ 9 0 0 1 1 envZero 0).ret = 1 ↔
      ((scan_resp envZero 0 16).1 = 0 ∧
        (find_token 0xFE envZero (scan_resp envZero 0 16).2 1).1 = true ∧
        (rd envZero ((find_token 0xFE envZero (scan_resp envZero 0 16).2 1).2 + 0) <<< 8 |||
            rd envZero ((find_token 0xFE envZero (scan_resp envZero 0 16).2 1).2 + 0 + 1)) =
          calc_crc16 (readN envZero (find_token 0xFE envZero (scan_resp envZero 0 16).2 1).2 0))) ∧
    ((rd envZero ((find_token 0xFE envZero (scan_resp envZero 0 16).2 1).2 + 0) <<< 8 |||
        rd envZero ((find_token 0xFE envZero (scan_resp envZero 0 16).2 1).2 + 0 + 1)) ≠
        calc_crc16 (readN envZero (find_token 0xFE envZero (scan_resp envZero 0 16).2 1).2 0) →
      (read_data_block ⟨0, 0⟩ 9 0 0 1 1 envZero 0).ret = 0 ∧
      (read_data_block ⟨0, 0⟩ 9 0 0 1 1 envZero 0).st.err &&& SDE_CRC_ERR ≠ 0) :=
  read_data_block_success_iff ⟨0, 0⟩ 9 0 0 1 1 envZero 0

theorem read_data_block_err_mono (st : SdState) (cmd arg len f1 f2 : Nat)
    (env : Env) (pos : Nat) :
    st.err ||| (read_data_block st cmd arg len f1 f2 env pos).st.err =
      (read_data_block st cmd arg len f1 f2 env pos).st.err := by
  unfold read_data_block
  dsimp only
  repeat' split
  all_goals
    first
      | exact or_absorb_left2 _ _ _
      | exact or_absorb_left _ _
      | exact Nat.or_self _

theorem check_write_protect_err_mono (st : SdState) (f1 f2 : Nat)
    (env : Env) (pos : Nat) :
    st.err ||| (sdcard_check_write_protect st f1 f2 env pos).2.1.err =
      (sdcard_check_write_protect st f1 f2 env pos).2.1.err := by
  unfold sdcard_check_write_protect
  dsimp only
  repeat' split
  all_goals exact read_data_block_err_mono _ _ _ _ _ _ _ _

theorem init_tail_err_mono (st : SdState) (f1 f2 : Nat) (env : Env) (pos : Nat) :
    st.err ||| (sdcard_init_tail st f1 f2 env pos).st.err =
      (sdcard_init_tail st f1 f2 env pos).st.err := by
  unfold sdcard_init_tail
  dsimp only
  repeat' split
  all_goals
    first
      | exact or_absorb_left _ _
      | exact check_write_protect_err_mono _ _ _ _ _

set_option maxHeartbeats 1000000 in
theorem init_err_mono (st : SdState) (f1 f2 : Nat) (env : Env) (pos : Nat) :
    st.err ||| (sdcard_init st f1 f2 env pos).st.err =
      (sdcard_init st f1 f2 env pos).st.err := by
  unfold sdcard_init
  dsimp only
  generalize check_command SDCMD_GO_IDLE_STATE 0 0 1 env pos 50 = c1
  generalize check_command SDCMD_SEND_IF_COND 0x10A (CF_FULL_RESP ||| CF_NOT_EXPECT)
    0xFF env c1.pos 3 = c2
  generalize (if c2.buf.getD 0 0 &&& 4 ≠ 0 then (1 : Nat)
    else if c2.buf.getD 0 0 = 1 ∧ c2.buf.getD 3 0 = 1 ∧ c2.buf.getD 4 0 = 10 then 2
    else 0) = v
  generalize check_command SDCMD_CRC_ON_OFF 1 0 1 env c2.pos 3 = c3
  generalize check_command SDCMD_READ_OCR 0 CF_FULL_RESP 1 env c3.pos 20 = c4
  generalize check_command SDCMD_SEND_OP_COND (if v = 1 then 0 else 1 <<< 30)
    CF_APP_CMD 0 env c4.pos 250 = c5
  generalize check_command SDCMD_READ_OCR 0 CF_FULL_RESP 0 env c5.pos 5 = c6
  repeat' split
  all_goals
    first
      | exact or_absorb_left _ _
      | exact init_tail_err_mono _ _ _ _ _
      | exact init_tail_err_mono ⟨st.flags ||| SDF_HIGH_CAPACITY, st.err⟩ _ _ _ _
      | exact Nat.or_self _

/-- Claim C3 counterexample: write_sector does modify the accumulated
error set — on an initialized state with a card that never leaves the
idle line, the WriteErr bit is ORed in by write_sector, so init is not the
only operation that can add error bits. -/
theorem write_sector_modifies_err_cx :
    (sdcard_write_sector ⟨1, 0⟩ [] 0 0 envIdle 0).st.err ≠ (SdState.mk 1 0).err := by
  decide

/-- Claim C3 (amended): the accumulated error set only ever grows — every
operation's resulting error set contains the previous one — but the
operations that can add bits are init, read_sector and write_sector;
deinit never modifies the error set. -/
theorem error_set_monotone (st : SdState) (buf : List Nat) (sector fb f1 f2 : Nat)
    (env : Env) (pos : Nat) :
    st.err ||| (sdcard_write_sector st buf sector fb env pos).st.err =
      (sdcard_write_sector st buf sector fb env pos).st.err ∧
    st.err ||| (sdcard_read_sector st sector f1 f2 env pos).st.err =
      (sdcard_read_sector st sector f1 f2 env pos).st.err ∧
    st.err ||| (sdcard_init st f1 f2 env pos).st.err =
      (sdcard_init st f1 f2 env pos).st.err ∧
    (sdcard_deinit st env pos).1.err = st.err := by
  refine ⟨?_, ?_, init_err_mono st f1 f2 env pos, ?_⟩
  · unfold sdcard_write_sector
    dsimp only
    repeat' split
    all_goals
      first
        | exact or_absorb_left _ _
        | exact Nat.or_self _
  · unfold sdcard_read_sector
    split
    · exact Nat.or_self _
    · exact read_data_block_err_mono _ _ _ _ _ _ _ _
  · unfold sdcard_deinit
    dsimp only
    split <;> rfl

/-- Claim C10: deinit only adds the Deinitialized flag — the error set and
the Initialized, HighCapacity and WriteProtected bits are unchanged — so
after deinit on an initialized state, read_sector and write_sector are not
rejected by the not-ready guard (they do not return 255) and still assert
chip-select, i.e. they perform hardware access. -/
theorem deinit_frame_effect (st : SdState) (buf : List Nat) (sector fb f1 f2 : Nat)
    (env env2 : Env) (pos pos2 : Nat)
    (hinit : st.flags &&& SDF_INITIALIZED ≠ 0) :
    (sdcard_deinit st env pos).1.err = st.err ∧
    (sdcard_deinit st env pos).1.flags &&& SDF_INITIALIZED =
      st.flags &&& SDF_INITIALIZED ∧
    (sdcard_deinit st env pos).1.flags &&& SDF_HIGH_CAPACITY =
      st.flags &&& SDF_HIGH_CAPACITY ∧
    (sdcard_deinit st env pos).1.flags &&& SDF_WRITE_PROTECTED =
      st.flags &&& SDF_WRITE_PROTECTED ∧
    (sdcard_deinit st env pos).1.flags &&& SDF_DEINIT ≠ 0 ∧
    (sdcard_read_sector (sdcard_deinit st env pos).1 sector f1 f2 env2 pos2).ret ≠ 255 ∧
    (sdcard_read_sector (sdcard_deinit st env pos).1 sector f1 f2 env2 pos2).tr.head? =
      some Event.csAssert ∧
    (sdcard_write_sector (sdcard_deinit st env pos).1 buf sector fb env2 pos2).ret ≠ 255 ∧
    (sdcard_write_sector (sdcard_deinit st env pos).1 buf sector fb env2 pos2).tr.head? =
      some Event.csAssert := by
  have hd : (sdcard_deinit st env pos).1.err = st.err ∧
      (sdcard_deinit st env pos).1.flags &&& SDF_INITIALIZED =
        st.flags &&& SDF_INITIALIZED ∧
      (sdcard_deinit st env pos).1.flags &&& SDF_HIGH_CAPACITY =
        st.flags &&& SDF_HIGH_CAPACITY ∧
      (sdcard_deinit st env pos).1.flags &&& SDF_WRITE_PROTECTED =
        st.flags &&& SDF_WRITE_PROTECTED ∧
      (sdcard_deinit st env pos).1.flags &&& SDF_DEINIT ≠ 0 := by
    unfold sdcard_deinit
    split
    · refine ⟨rfl, rfl, rfl, rfl, ?_⟩
      assumption
    · dsimp only
      refine ⟨rfl, or_and_of_disjoint _ _ _ (by decide),
        or_and_of_disjoint _ _ _ (by decide),
        or_and_of_disjoint _ _ _ (by decide), ?_⟩
      rw [or_flag_and]
      decide
  have hg : (sdcard_deinit st env pos).1.flags &&& SDF_INITIALIZED ≠ 0 := by
    rw [hd.2.1]
    exact hinit
  refine ⟨hd.1, hd.2.1, hd.2.2.1, hd.2.2.2.1, hd.2.2.2.2, ?_, ?_, ?_, ?_⟩
  · unfold sdcard_read_sector
    rw [if_neg hg]
    unfold read_data_block
    dsimp only
    repeat' split
    all_goals simp
  · unfold sdcard_read_sector
    rw [if_neg hg]
    unfold read_data_block
    dsimp only
    simp only [apply_ite RdRes.tr, ite_self]
    rfl
  · unfold sdcard_write_sector
    rw [if_neg hg]
    dsimp only
    repeat' split
    all_goals simp
  · unfold sdcard_write_sector
    rw [if_neg hg]
    dsimp only
    simp only [apply_ite WrRes.tr, ite_self]
    split <;> rfl

/-- Claim C10 witness: deinit on a freshly initialized state, followed by
read and write against a scripted bus. -/
theorem deinit_frame_effect_witness :
    (sdcard_deinit ⟨1, 0⟩ envZero 0).1.err = (SdState.mk 1 0).err ∧
    (sdcard_deinit ⟨1, 0⟩ envZero 0).1.flags &&& SDF_INITIALIZED =
      (SdState.mk 1 0).flags &&& SDF_INITIALIZED ∧
    (sdcard_deinit ⟨1, 0⟩ envZero 0).1.flags &&& SDF_HIGH_CAPACITY =
      (SdState.mk 1 0).flags &&& SDF_HIGH_CAPACITY ∧
    (sdcard_deinit ⟨1, 0⟩ envZero 0).1.flags &&& SDF_WRITE_PROTECTED =
      (SdState.mk 1 0).flags &&& SDF_WRITE_PROTECTED ∧
    (sdcard_deinit ⟨1, 0⟩ envZero 0).1.flags &&& SDF_DEINIT ≠ 0 ∧
    (sdcard_read_sector (sdcard_deinit ⟨1, 0⟩ envZero 0).1 3 1 1 envZero 0).ret ≠ 255 ∧
    (sdcard_read_sector (sdcard_deinit ⟨1, 0⟩ envZero 0).1 3 1 1 envZero 0).tr.head? =
      some Event.csAssert ∧
    (sdcard_write_sector (sdcard_deinit ⟨1, 0⟩ envZero 0).1 [] 3 1 envZero 0).ret ≠ 255 ∧
    (sdcard_write_sector (sdcard_deinit ⟨1, 0⟩ envZero 0).1 [] 3 1 envZero 0).tr.head? =
      some Event.csAssert :=
  deinit_frame_effect ⟨1, 0⟩ [] 3 1 1 1 envZero envZero 0 0 (by decide)

theorem read_data_block_flags (st : SdState) (cmd arg len f1 f2 : Nat)
    (env : Env) (pos : Nat) :
    (read_data_block st cmd arg len f1 f2 env pos).st.flags = st.flags := by
  unfold read_data_block
  dsimp only
  repeat' split
  all_goals rfl

theorem init_reaches_tail (st : SdState) (f1 f2 : Nat) (env : Env) (pos : Nat)
    (c1 : ChkRes) (e1 : check_command SDCMD_GO_IDLE_STATE 0 0 1 env pos 50 = c1)
    (h1 : c1.ok ≠ 0)
    (c2 : ChkRes)
    (e2 : check_command SDCMD_SEND_IF_COND 0x10A (CF_FULL_RESP ||| CF_NOT_EXPECT)
      0xFF env c1.pos 3 = c2)
    (h2 : c2.ok ≠ 0)
    (ver : Nat)
    (ev : (if c2.buf.getD 0 0 &&& 4 ≠ 0 then (1 : Nat)
      else if c2.buf.getD 0 0 = 1 ∧ c2.buf.getD 3 0 = 1 ∧ c2.buf.getD 4 0 = 10 then 2
      else 0) = ver)
    (hv : ver ≠ 0)
    (c3 : ChkRes) (e3 : check_command SDCMD_CRC_ON_OFF 1 0 1 env c2.pos 3 = c3)
    (h3 : c3.ok ≠ 0)
    (c4 : ChkRes) (e4 : check_command SDCMD_READ_OCR 0 CF_FULL_RESP 1 env c3.pos 20 = c4)
    (h4 : c4.ok ≠ 0)
    (h4v : c4.buf.getD 2 0 &&& 0x30 = 0x30)
    (c5 : ChkRes)
    (e5 : check_command SDCMD_SEND_OP_COND (if ver = 1 then 0 else 1 <<< 30)
      CF_APP_CMD 0 env c4.pos 250 = c5)
    (h5 : c5.ok ≠ 0)
    (c6 : ChkRes) (e6 : check_command SDCMD_READ_OCR 0 CF_FULL_RESP 0 env c5.pos 5 = c6)
    (h6 : ver = 2 → c6.ok ≠ 0)
    (stW : SdState)
    (eW : (if ver = 2 then
        (if c6.buf.getD 1 0 &&& 0x40 ≠ 0 then
          {st with flags := st.flags ||| SDF_HIGH_CAPACITY} else st)
      else st) = stW)
    (p6 : Nat) (ep6 : (if ver = 2 then c6.pos else c5.pos) = p6) :
    sdcard_init st f1 f2 env pos = sdcard_init_tail stW f1 f2 env p6 := by
  unfold sdcard_init
  dsimp only
  rw [e1, if_neg h1, e2, if_neg h2, ev, if_neg hv, e3, if_neg h3, e4, if_neg h4,
    if_neg (not_not_intro h4v), e5, if_neg h5]
  by_cases hver2 : ver = 2
  · rw [if_pos hver2] at eW ep6
    rw [if_pos hver2, e6, if_neg (h6 hver2), eW, ep6]
  · rw [if_neg hver2] at eW ep6
    rw [if_neg hver2, eW, ep6]

theorem stW_flags_bit (st stW : SdState) (ver : Nat) (c6 : ChkRes)
    (eW : (if ver = 2 then
        (if c6.buf.getD 1 0 &&& 0x40 ≠ 0 then
          {st with flags := st.flags ||| SDF_HIGH_CAPACITY} else st)
      else st) = stW) :
    stW.flags &&& SDF_INITIALIZED = st.flags &&& SDF_INITIALIZED := by
  subst eW
  split
  · split
    · exact or_and_of_disjoint _ _ _ (by decide)
    · rfl
  · rfl

theorem init_tail_wp_protected (stW : SdState) (f1 f2 : Nat) (env : Env) (p6 : Nat)
    (c7 : ChkRes) (e7 : check_command SDCMD_SET_BLOCKLEN SD_SECTOR_SIZE 0 0 env p6 3 = c7)
    (h7 : c7.ok ≠ 0)
    (hcsd : (read_data_block stW SDCMD_SEND_CSD 0 16 f1 f2 env c7.pos).ret = 1)
    (hprot : (read_data_block stW SDCMD_SEND_CSD 0 16 f1 f2 env c7.pos).data.getD 14 0
      &&& 0x30 ≠ 0) :
    (sdcard_init_tail stW f1 f2 env p6).ret = 0 ∧
    (sdcard_init_tail stW f1 f2 env p6).st.flags &&& SDF_WRITE_PROTECTED ≠ 0 ∧
    (sdcard_init_tail stW f1 f2 env p6).st.flags &&& SDF_INITIALIZED =
      stW.flags &&& SDF_INITIALIZED := by
  have hne : (read_data_block stW SDCMD_SEND_CSD 0 16 f1 f2 env c7.pos).ret ≠ 0 := by
    rw [hcsd]
    decide
  have hw : sdcard_check_write_protect stW f1 f2 env c7.pos =
      (0, (read_data_block stW SDCMD_SEND_CSD 0 16 f1 f2 env c7.pos).st,
        (read_data_block stW SDCMD_SEND_CSD 0 16 f1 f2 env c7.pos).pos) := by
    unfold sdcard_check_write_protect
    dsimp only
    rw [if_neg hne, if_pos hprot]
  unfold sdcard_init_tail
  dsimp only
  rw [e7, if_neg h7, hw]
  dsimp only
  rw [if_pos rfl]
  refine ⟨rfl, ?_, ?_⟩
  · rw [or_flag_and]
    decide
  · rw [or_and_of_disjoint _ _ _ (by decide), read_data_block_flags]

theorem init_tail_wp_readfail (stW : SdState) (f1 f2 : Nat) (env : Env) (p6 : Nat)
    (c7 : ChkRes) (e7 : check_command SDCMD_SET_BLOCKLEN SD_SECTOR_SIZE 0 0 env p6 3 = c7)
    (h7 : c7.ok ≠ 0)
    (hfail : (read_data_block stW SDCMD_SEND_CSD 0 16 f1 f2 env c7.pos).ret = 0) :
    (sdcard_init_tail stW f1 f2 env p6).ret = 0 ∧
    (sdcard_init_tail stW f1 f2 env p6).st.flags &&& SDF_WRITE_PROTECTED ≠ 0 ∧
    (sdcard_init_tail stW f1 f2 env p6).st.flags &&& SDF_INITIALIZED =
      stW.flags &&& SDF_INITIALIZED := by
  have hw : sdcard_check_write_protect stW f1 f2 env c7.pos =
      (0, (read_data_block stW SDCMD_SEND_CSD 0 16 f1 f2 env c7.pos).st,
        (read_data_block stW SDCMD_SEND_CSD 0 16 f1 f2 env c7.pos).pos) := by
    unfold sdcard_check_write_protect
    dsimp only
    rw [if_pos hfail]
  unfold sdcard_init_tail
  dsimp only
  rw [e7, if_neg h7, hw]
  dsimp only
  rw [if_pos rfl]
  refine ⟨rfl, ?_, ?_⟩
  · rw [or_flag_and]
    decide
  · rw [or_and_of_disjoint _ _ _ (by decide), read_data_block_flags]

/-- Claim C8: in an init run where every stage up to and including the
block-length fix succeeds but the CSD read of the write-protect check
succeeds with nonzero protect bits (CSD byte 14 &&& 0x30 ≠ 0), init
returns 0, sets the WriteProtected flag and leaves the Initialized bit
unchanged — Initialized is set only when every stage, including the
write-protect check, succeeds. -/
theorem init_write_protect_aborts (st : SdState) (f1 f2 : Nat) (env : Env) (pos : Nat)
    (c1 : ChkRes) (e1 : check_command SDCMD_GO_IDLE_STATE 0 0 1 env pos 50 = c1)
    (h1 : c1.ok ≠ 0)
    (c2 : ChkRes)
    (e2 : check_command SDCMD_SEND_IF_COND 0x10A (CF_FULL_RESP ||| CF_NOT_EXPECT)
      0xFF env c1.pos 3 = c2)
    (h2 : c2.ok ≠ 0)
    (ver : Nat)
    (ev : (if c2.buf.getD 0 0 &&& 4 ≠ 0 then (1 : Nat)
      else if c2.buf.getD 0 0 = 1 ∧ c2.buf.getD 3 0 = 1 ∧ c2.buf.getD 4 0 = 10 then 2
      else 0) = ver)
    (hv : ver ≠ 0)
    (c3 : ChkRes) (e3 : check_command SDCMD_CRC_ON_OFF 1 0 1 env c2.pos 3 = c3)
    (h3 : c3.ok ≠ 0)
    (c4 : ChkRes) (e4 : check_command SDCMD_READ_OCR 0 CF_FULL_RESP 1 env c3.pos 20 = c4)
    (h4 : c4.ok ≠ 0)
    (h4v : c4.buf.getD 2 0 &&& 0x30 = 0x30)
    (c5 : ChkRes)
    (e5 : check_command SDCMD_SEND_OP_COND (if ver = 1 then 0 else 1 <<< 30)
      CF_APP_CMD 0 env c4.pos 250 = c5)
    (h5 : c5.ok ≠ 0)
    (c6 : ChkRes) (e6 : check_command SDCMD_READ_OCR 0 CF_FULL_RESP 0 env c5.pos 5 = c6)
    (h6 : ver = 2 → c6.ok ≠ 0)
    (stW : SdState)
    (eW : (if ver = 2 then
        (if c6.buf.getD 1 0 &&& 0x40 ≠ 0 then
          {st with flags := st.flags ||| SDF_HIGH_CAPACITY} else st)
      else st) = stW)
    (p6 : Nat) (ep6 : (if ver = 2 then c6.pos else c5.pos) = p6)
    (c7 : ChkRes) (e7 : check_command SDCMD_SET_BLOCKLEN SD_SECTOR_SIZE 0 0 env p6 3 = c7)
    (h7 : c7.ok ≠ 0)
    (hcsd : (read_data_block stW SDCMD_SEND_CSD 0 16 f1 f2 env c7.pos).ret = 1)
    (hprot : (read_data_block stW SDCMD_SEND_CSD 0 16 f1 f2 env c7.pos).data.getD 14 0
      &&& 0x30 ≠ 0) :
    (sdcard_init st f1 f2 env pos).ret = 0 ∧
    (sdcard_init st f1 f2 env pos).st.flags &&& SDF_WRITE_PROTECTED ≠ 0 ∧
    (sdcard_init st f1 f2 env pos).st.flags &&& SDF_INITIALIZED =
      st.flags &&& SDF_INITIALIZED := by
  have ht := init_reaches_tail st f1 f2 env pos c1 e1 h1 c2 e2 h2 ver ev hv
    c3 e3 h3 c4 e4 h4 h4v c5 e5 h5 c6 e6 h6 stW eW p6 ep6
  rw [ht]
  have hw := init_tail_wp_protected stW f1 f2 env p6 c7 e7 h7 hcsd hprot
  exact ⟨hw.1, hw.2.1, hw.2.2.trans (stW_flags_bit st stW ver c6 eW)⟩

/-- Claim C8 witness: the protected-card script envInitWP drives every
stage to success and the CSD protect bits abort init with the
WriteProtected flag set and Initialized still clear. -/
theorem init_write_protect_aborts_witness :
    (sdcard_init ⟨0, 0⟩ 1 0 envInitWP 0).ret = 0 ∧
    (sdcard_init ⟨0, 0⟩ 1 0 envInitWP 0).st.flags &&& SDF_WRITE_PROTECTED ≠ 0 ∧
    (sdcard_init ⟨0, 0⟩ 1 0 envInitWP 0).st.flags &&& SDF_INITIALIZED =
      (SdState.mk 0 0).flags &&& SDF_INITIALIZED :=
  init_write_protect_aborts ⟨0, 0⟩ 1 0 envInitWP 0
    _ rfl (by decide)
    _ rfl (by decide)
    _ rfl (by decide)
    _ rfl (by decide)
    _ rfl (by decide) (by decide)
    _ rfl (by decide)
    _ rfl (by intro h; decide)
    _ rfl
    _ rfl
    _ rfl (by decide)
    (by decide) (by decide)

/-- Claim C9: in an init run where every stage up to and including the
block-length fix succeeds but the CSD read performed by the write-protect
check itself fails, init returns 0 and sets the WriteProtected flag even
though the protect bits were never observed. -/
theorem init_wp_flag_on_csd_read_failure (st : SdState) (f1 f2 : Nat) (env : Env)
    (pos : Nat)
    (c1 : ChkRes) (e1 : check_command SDCMD_GO_IDLE_STATE 0 0 1 env pos 50 = c1)
    (h1 : c1.ok ≠ 0)
    (c2 : ChkRes)
    (e2 : check_command SDCMD_SEND_IF_COND 0x10A (CF_FULL_RESP ||| CF_NOT_EXPECT)
      0xFF env c1.pos 3 = c2)
    (h2 : c2.ok ≠ 0)
    (ver : Nat)
    (ev : (if c2.buf.getD 0 0 &&& 4 ≠ 0 then (1 : Nat)
      else if c2.buf.getD 0 0 = 1 ∧ c2.buf.getD 3 0 = 1 ∧ c2.buf.getD 4 0 = 10 then 2
      else 0) = ver)
    (hv : ver ≠ 0)
    (c3 : ChkRes) (e3 : check_command SDCMD_CRC_ON_OFF 1 0 1 env c2.pos 3 = c3)
    (h3 : c3.ok ≠ 0)
    (c4 : ChkRes) (e4 : check_command SDCMD_READ_OCR 0 CF_FULL_RESP 1 env c3.pos 20 = c4)
    (h4 : c4.ok ≠ 0)
    (h4v : c4.buf.getD 2 0 &&& 0x30 = 0x30)
    (c5 : ChkRes)
    (e5 : check_command SDCMD_SEND_OP_COND (if ver = 1 then 0 else 1 <<< 30)
      CF_APP_CMD 0 env c4.pos 250 = c5)
    (h5 : c5.ok ≠ 0)
    (c6 : ChkRes) (e6 : check_command SDCMD_READ_OCR 0 CF_FULL_RESP 0 env c5.pos 5 = c6)
    (h6 : ver = 2 → c6.ok ≠ 0)
    (stW : SdState)
    (eW : (if ver = 2 then
        (if c6.buf.getD 1 0 &&& 0x40 ≠ 0 then
          {st with flags := st.flags ||| SDF_HIGH_CAPACITY} else st)
      else st) = stW)
    (p6 : Nat) (ep6 : (if ver = 2 then c6.pos else c5.pos) = p6)
    (c7 : ChkRes) (e7 : check_command SDCMD_SET_BLOCKLEN SD_SECTOR_SIZE 0 0 env p6 3 = c7)
    (h7 : c7.ok ≠ 0)
    (hfail : (read_data_block stW SDCMD_SEND_CSD 0 16 f1 f2 env c7.pos).ret = 0) :
    (sdcard_init st f1 f2 env pos).ret = 0 ∧
    (sdcard_init st f1 f2 env pos).st.flags &&& SDF_WRITE_PROTECTED ≠ 0 := by
  have ht := init_reaches_tail st f1 f2 env pos c1 e1 h1 c2 e2 h2 ver ev hv
    c3 e3 h3 c4 e4 h4 h4v c5 e5 h5 c6 e6 h6 stW eW p6 ep6
  rw [ht]
  have hw := init_tail_wp_readfail stW f1 f2 env p6 c7 e7 h7 hfail
  exact ⟨hw.1, hw.2.1⟩

/-- Claim C9 witness: the same script with zero fuel for the start-token
scan makes the CSD read fail, and init still sets WriteProtected. -/
theorem init_wp_flag_on_csd_read_failure_witness :
    (sdcard_init ⟨0, 0⟩ 0 0 envInitWP 0).ret = 0 ∧
    (sdcard_init ⟨0, 0⟩ 0 0 envInitWP 0).st.flags &&& SDF_WRITE_PROTECTED ≠ 0 :=
  init_wp_flag_on_csd_read_failure ⟨0, 0⟩ 0 0 envInitWP 0
    _ rfl (by decide)
    _ rfl (by decide)
    _ rfl (by decide)
    _ rfl (by decide)
    _ rfl (by decide) (by decide)
    _ rfl (by decide)
    _ rfl (by intro h; decide)
    _ rfl
    _ rfl
    _ rfl (by decide)
    (by decide)

/-- Claim C2 witness: the translation at sector 5 for a standard-capacity
and for a high-capacity initialized state. -/
theorem sector_address_translation_witness :
    ((⟨1, 0⟩ : SdState).flags &&& SDF_HIGH_CAPACITY = 0 →
      sector_offset (SdState.mk 1 0).flags 5 = 2560) ∧
    ((⟨3, 0⟩ : SdState).flags &&& SDF_HIGH_CAPACITY ≠ 0 →
      sector_offset (SdState.mk 3 0).flags 5 = 5) :=
  ⟨(sector_address_translation ⟨1, 0⟩ [] 5 0 0 0 envZero 0 (by decide)).2.2.2.2.1,
   (sector_address_translation ⟨3, 0⟩ [] 5 0 0 0 envZero 0 (by decide)).2.2.2.2.2⟩

end SdSpi
